import Mathlib

/-!
Verification development for the glyphy-board schedule matching and dispatch
engine.  The definitions below are a shallow embedding of the Python sources:

* `src/src/scheduler.py`   — `ScheduleEngine` (the active engine),
* `src/scheduler.py`       — the legacy top-level copy of the engine,
* `src/src/blueprints/schedules.py` — the web CRUD store.

Python `datetime` values are modelled by their naive wall-clock value (an
integer number of seconds) together with an optional UTC-offset (`tz`);
comparisons between two naive or two aware datetimes are defined, a mixed
comparison raises `TypeError`, which we model with `Option Bool`.
-/

set_option autoImplicit false

namespace GlyphyBoard

/-- A parsed Python `datetime`: `naive` is the wall-clock value in seconds
(the value obtained after dropping any timezone), `tz` is the UTC offset in
seconds carried by `tzinfo`, or `none` for a naive datetime. -/
structure DT where
  naive : Int
  tz : Option Int
deriving DecidableEq

/-- A stored ISO-8601 datetime string, as classified by
`datetime.fromisoformat(s.replace('Z', '+00:00'))`: either it parses to a
`DT` (a `Z` suffix yields offset `0`), or it raises `ValueError` (`bad`). -/
inductive DTStr where
  | bad
  | val (d : DT)
deriving DecidableEq

/-- Result of `datetime.fromisoformat` on the modelled string. -/
def DTStr.parse : DTStr → Option DT
  | .bad => none
  | .val d => some d

/-- Python `<=` on datetimes: two naive values compare by wall clock, two
aware values compare as instants (`naive - offset`), and comparing a naive
with an aware value raises `TypeError` (modelled as `none`). -/
def pyLE (a b : DT) : Option Bool :=
  match a.tz, b.tz with
  | none, none => some (decide (a.naive ≤ b.naive))
  | some x, some y => some (decide (a.naive - x ≤ b.naive - y))
  | _, _ => none

/-- `ScheduleEngine.is_time_in_absolute_range` (src/src/scheduler.py:85-107).
Parses both bounds; if the start bound is timezone-aware and `current_time`
is naive, `current_time` is localized to UTC (`pytz.timezone('UTC').localize`
keeps the wall-clock fields and attaches offset 0).  Then evaluates the
chained comparison `start_dt <= current_time <= end_dt`; any exception
(parse failure or mixed naive/aware comparison) is caught and yields
`False`. -/
def is_time_in_absolute_range (current_time : DT) (start_datetime end_datetime : DTStr) : Bool :=
  match start_datetime.parse with
  | none => false
  | some start_dt =>
    match end_datetime.parse with
    | none => false
    | some end_dt =>
      let current := if start_dt.tz.isSome && current_time.tz.isNone then
          { current_time with tz := some 0 } else current_time
      match pyLE start_dt current with
      | some true =>
        match pyLE current end_dt with
        | some b => b
        | none => false
      | _ => false

/-- Legacy `ScheduleEngine.is_time_in_absolute_range` (src/scheduler.py:63-78).
Parses both bounds, then strips the timezone from each aware bound with
`replace(tzinfo=None)` (which keeps the wall-clock fields) and evaluates
`start_dt <= current_time <= end_dt`; exceptions yield `False`. -/
def legacy_is_time_in_absolute_range (current_time : DT) (start_datetime end_datetime : DTStr) : Bool :=
  match start_datetime.parse with
  | none => false
  | some s =>
    match end_datetime.parse with
    | none => false
    | some e =>
      let start_dt : DT := ⟨s.naive, none⟩
      let end_dt : DT := ⟨e.naive, none⟩
      match pyLE start_dt current_time with
      | some true =>
        match pyLE current_time end_dt with
        | some b => b
        | none => false
      | _ => false

/-- The comparison described by the specification's words for zoned absolute
bounds: strip the zone from each bound and compare local-naive wall-clock
values against the naive `now`. -/
def strip_naive_compare (current_time : DT) (start_datetime end_datetime : DTStr) : Bool :=
  match start_datetime.parse, end_datetime.parse with
  | some s, some e => decide (s.naive ≤ current_time.naive) && decide (current_time.naive ≤ e.naive)
  | _, _ => false

/-- The `now` instant as used by the relative matcher: `datetime.now()` is
naive, and the matcher reads its clock fields.  `naive`/`tz` give the value
used for absolute comparisons (`tz = none` for `datetime.now()`), `hour`,
`minute`, `day` are the Python attributes, and `weekday` is Python's
`weekday()` (0 = Monday .. 6 = Sunday). -/
structure Tm where
  naive : Int
  tz : Option Int
  hour : Nat
  minute : Nat
  day : Nat
  weekday : Nat
deriving DecidableEq

/-- The datetime value of a `Tm`, as compared by the absolute matcher. -/
def Tm.toDT (t : Tm) : DT := ⟨t.naive, t.tz⟩

/-- Python `s.split(':')` on the string's characters: splits at every `:`,
keeping empty pieces. -/
def splitOnColon : List Char → List (List Char)
  | [] => [[]]
  | c :: cs =>
    let rest := splitOnColon cs
    if c = ':' then [] :: rest
    else
      match rest with
      | piece :: pieces => (c :: piece) :: pieces
      | [] => [[c]]

/-- Accumulate decimal digits; any non-digit character fails (Python `int`
raises `ValueError`). -/
def digitsAux (acc : Nat) : List Char → Option Nat
  | [] => some acc
  | c :: cs => if c.isDigit then digitsAux (10 * acc + (c.toNat - 48)) cs else none

/-- A non-empty all-digit character list as a number. -/
def digitsToNat (l : List Char) : Option Nat :=
  if l.isEmpty then none else digitsAux 0 l

/-- Python `int(...)` on one piece: an optional leading minus sign followed
by decimal digits. -/
def pyInt (l : List Char) : Option Int :=
  match l with
  | '-' :: rest => (digitsToNat rest).map (fun n => -(n : Int))
  | _ => (digitsToNat l).map Int.ofNat

/-- `map(int, s.split(':'))` unpacked into two values: succeeds only when the
string has exactly one `:` and both parts parse as integers; otherwise the
Python code raises (caught by the matcher). -/
def parseClock (s : String) : Option (Int × Int) :=
  match splitOnColon s.data with
  | [h, m] =>
    match pyInt h, pyInt m with
    | some hv, some mv => some (hv, mv)
    | _, _ => none
  | _ => none

/-- `ScheduleEngine.is_time_in_relative_range` (src/src/scheduler.py:109-143).
Parses the `HH:MM` strings, converts everything to minutes, applies the
same-day or overnight clock-window test, then the pattern gate; any parse
exception yields `False`.  Python's `%` on a positive modulus agrees with
`Int.emod`. -/
def is_time_in_relative_range (current_time : Tm) (pattern_type start_time end_time : String)
    (weekly_day monthly_day : Int) : Bool :=
  match parseClock start_time, parseClock end_time with
  | some (start_hour, start_minute), some (end_hour, end_minute) =>
    let current_time_minutes : Int := (current_time.hour : Int) * 60 + (current_time.minute : Int)
    let start_time_minutes : Int := start_hour * 60 + start_minute
    let end_time_minutes : Int := end_hour * 60 + end_minute
    let time_matches : Bool :=
      if end_time_minutes < start_time_minutes then
        decide (current_time_minutes ≥ start_time_minutes) ||
          decide (current_time_minutes ≤ end_time_minutes)
      else
        decide (start_time_minutes ≤ current_time_minutes) &&
          decide (current_time_minutes ≤ end_time_minutes)
    if !time_matches then false
    else if pattern_type = "daily" then true
    else if pattern_type = "weekly" then
      decide ((current_time.weekday : Int) = (weekly_day - 1) % 7)
    else if pattern_type = "monthly" then
      decide ((current_time.day : Int) = monthly_day)
    else false
  | _, _ => false

/-- A stored `Schedule` record.  `active` is read with
`s.get('active', False)`, so the field is optional; `id` and `name` are read
with direct indexing and are always present in CRUD-created data. -/
structure Schedule where
  id : String
  name : String
  active : Option Bool
deriving DecidableEq

/-- A stored `ScheduleItem` record, modelled field by field as the engine
reads it with `item.get(...)`.  `none` on an optional field means the key is
absent (or, for the datetime fields, holds a falsy empty string — both take
the same missing-field path in `is_item_active_now`). -/
structure ScheduleItem where
  id : String
  schedule_id : Option String
  board_name : String
  schedule_type : Option String
  start_datetime : Option DTStr
  end_datetime : Option DTStr
  pattern_type : Option String
  start_time : Option String
  end_time : Option String
  weekly_day : Option Int
  monthly_day : Option Int
deriving DecidableEq

/-- `ScheduleEngine.is_item_active_now` (src/src/scheduler.py:192-225).
The discriminator is `item.get('schedule_type', 'absolute')`; missing or
empty required fields log a warning and yield `False`; for a relative item,
`weekly_day`/`monthly_day` are added to the kwargs (default 1) only for
their own pattern type, and the matcher's own `kwargs.get(..., 1)` supplies
1 otherwise. -/
def is_item_active_now (item : ScheduleItem) (current_time : Tm) : Bool :=
  let schedule_type := item.schedule_type.getD "absolute"
  if schedule_type = "absolute" then
    match item.start_datetime, item.end_datetime with
    | some sd, some ed => is_time_in_absolute_range current_time.toDT sd ed
    | _, _ => false
  else if schedule_type = "relative" then
    let pattern_type := item.pattern_type.getD "daily"
    match item.start_time, item.end_time with
    | some st, some et =>
      if st.isEmpty || et.isEmpty then false
      else
        let weekly_day := if pattern_type = "weekly" then item.weekly_day.getD 1 else 1
        let monthly_day := if pattern_type = "monthly" then item.monthly_day.getD 1 else 1
        is_time_in_relative_range current_time pattern_type st et weekly_day monthly_day
    | _, _ => false
  else false

/-- The outer loop of `find_active_schedule_item`: for each active schedule
in order, filter the items belonging to it (in order) and return the first
one active now; otherwise continue with the remaining schedules. -/
def scanSchedules (items : List ScheduleItem) (current_time : Tm) :
    List Schedule → Option ScheduleItem
  | [] => none
  | s :: rest =>
    match (items.filter (fun it => it.schedule_id == some s.id)).find?
        (fun it => is_item_active_now it current_time) with
    | some it => some it
    | none => scanSchedules items current_time rest

/-- `ScheduleEngine.find_active_schedule_item` (src/src/scheduler.py:145-190),
parametrized by the loaded collections and the current instant.  Empty
schedules, empty items, or no active schedule return `None` early; otherwise
the active schedules are scanned in storage order. -/
def find_active_schedule_item (schedules : List Schedule) (schedule_items : List ScheduleItem)
    (current_time : Tm) : Option ScheduleItem :=
  if schedules.isEmpty then none
  else if schedule_items.isEmpty then none
  else
    let active_schedules := schedules.filter (fun s => s.active.getD false)
    if active_schedules.isEmpty then none
    else scanSchedules schedule_items current_time active_schedules

/-! ### Store: JSON document loading (`load_schedules` / `load_schedule_items`)

A document's content is classified exactly as the Python code classifies it:
the file is `missing`, exists but is `blank` (empty or whitespace only, so
`content.strip()` is falsy), holds `malformed` JSON (`json.loads` raises
`JSONDecodeError` on the raw bytes), or parses to an array of records. -/

/-- Classification of a stored JSON document's content. -/
inductive FileContent (α : Type) where
  | missing
  | blank
  | malformed (raw : String)
  | wellFormed (arr : List α)
deriving DecidableEq

/-- What one call of a load function returns and does to the filesystem:
the returned collection, whether the document was renamed to its `.backup`
sibling (and the bytes that backup then holds), what fresh content was
written to the document, and the document's content afterwards. -/
structure LoadOutcome (α : Type) where
  result : List α
  renamedToBackup : Bool
  backupContent : Option String
  wroteContent : Option (List α)
  newContent : FileContent α
deriving DecidableEq

/-- `load_schedules` / `load_schedule_items` of the web store
(src/src/blueprints/schedules.py:16-42 and 55-81).  A missing file is created
with `[]`; blank content returns `[]` without touching the file; malformed
JSON renames the file to `.backup` and writes a fresh `[]` document;
well-formed content is returned as is. -/
def blueprint_load {α : Type} (fc : FileContent α) : LoadOutcome α :=
  match fc with
  | .missing => ⟨[], false, none, some [], .wellFormed []⟩
  | .blank => ⟨[], false, none, none, .blank⟩
  | .malformed raw => ⟨[], true, some raw, some [], .wellFormed []⟩
  | .wellFormed arr => ⟨arr, false, none, none, .wellFormed arr⟩

/-- `ScheduleEngine.load_schedules` / `load_schedule_items`
(src/src/scheduler.py:55-83).  Every failure path (missing file, or any
exception from `json.load`, including blank and malformed content) only logs
and returns `[]`; the file is never renamed or rewritten. -/
def engine_load {α : Type} (fc : FileContent α) : LoadOutcome α :=
  match fc with
  | .missing => ⟨[], false, none, none, .missing⟩
  | .blank => ⟨[], false, none, none, .blank⟩
  | .malformed raw => ⟨[], false, none, none, .malformed raw⟩
  | .wellFormed arr => ⟨arr, false, none, none, .wellFormed arr⟩

/-! ### CRUD validation of relative items -/

/-- `datetime.strptime(s, '%H:%M').time()`: one `:`, both parts 1-2 digit
numbers within range, giving a `time` value that compares as minutes. -/
def parseTimeHM (s : String) : Option (Nat × Nat) :=
  match splitOnColon s.data with
  | [h, m] =>
    match digitsToNat h, digitsToNat m with
    | some hv, some mv =>
      if hv ≤ 23 && mv ≤ 59 && h.length ≤ 2 && m.length ≤ 2 then some (hv, mv) else none
    | _, _ => none
  | _ => none

/-- The relative-item time validation shared by `create_schedule_item`
(src/src/blueprints/schedules.py:250-267) and `update_schedule_item`
(src/src/blueprints/schedules.py:345-362): after the falsy check and the
`%H:%M` format check, the request is rejected with HTTP 400 whenever
`end_time_obj <= start_time_obj`. -/
def relative_item_time_check (start_time end_time : String) : Except String Unit :=
  if start_time.isEmpty || end_time.isEmpty then
    Except.error "Start time and end time are required"
  else
    match parseTimeHM start_time, parseTimeHM end_time with
    | some s, some e =>
      if e.1 * 60 + e.2 ≤ s.1 * 60 + s.2 then
        Except.error "End time must be after start time"
      else Except.ok ()
    | _, _ => Except.error "Invalid time format"

/-! ### Dispatcher and error reporter

The filesystem and child processes are an oracle `Env`; the observable
actions of a run are collected as a trace of `Event`s. -/

/-- Outcome of one `subprocess.run` call: the process completed (with its
return code and stderr), the timeout expired (`subprocess.TimeoutExpired`),
or spawning raised some other exception. -/
inductive SpawnResult where
  | completed (returncode : Int) (stderr : String)
  | timedOut
  | raised (msg : String)
deriving DecidableEq

/-- The external world seen by the dispatcher: which script paths exist, and
what running a given script under a given timeout (seconds) does. -/
structure Env where
  scriptExists : String → Bool
  run : String → Nat → SpawnResult

/-- Observable actions of a dispatch. -/
inductive Event where
  | ran (path : String) (timeoutSec : Nat)
  | loggedError (msg : String)
deriving DecidableEq

/-- `boards_dir / board_name / f"{board_name}.py"`. -/
def boardScriptPath (board_name : String) : String :=
  "boards/" ++ board_name ++ "/" ++ board_name ++ ".py"

/-- The fixed fallback board's script path used by `display_error`. -/
def dashboardScriptPath : String := "boards/dashboard/dashboard.py"

/-- `ScheduleEngine.display_error` (src/src/scheduler.py:272-283): if the
dashboard script exists, run it with a 60 second timeout; every exception of
that attempt is caught and logged, never re-raised — the function always
returns a trace.  A non-zero exit of the fallback raises nothing
(`subprocess.run` without `check`) and is ignored. -/
def display_error (env : Env) (error_message : String) : List Event :=
  if env.scriptExists dashboardScriptPath then
    match env.run dashboardScriptPath 60 with
    | .completed _ _ => [Event.ran dashboardScriptPath 60]
    | .timedOut =>
      [Event.ran dashboardScriptPath 60,
       Event.loggedError "Failed to display error on screen: timeout"]
    | .raised msg =>
      [Event.ran dashboardScriptPath 60,
       Event.loggedError ("Failed to display error on screen: " ++ msg)]
  else [Event.loggedError ("Dashboard script not found, cannot display error on screen: "
          ++ error_message)]

/-- `ScheduleEngine.execute_board_script` (src/src/scheduler.py:227-270):
resolve the script path; on a missing script, a non-zero exit, a timeout, or
a spawn exception, log the error, call `display_error`, and return `False`;
return `True` only on exit code 0 within the 300 second timeout. -/
def execute_board_script (env : Env) (board_name : String) : Bool × List Event :=
  let script_path := boardScriptPath board_name
  if env.scriptExists script_path = false then
    let error_msg := "Board script not found: " ++ script_path
    (false, Event.loggedError error_msg :: display_error env error_msg)
  else
    match env.run script_path 300 with
    | .completed returncode stderr =>
      if returncode = 0 then (true, [Event.ran script_path 300])
      else
        let error_msg := "Board script failed with return code " ++ toString returncode
          ++ ": " ++ stderr
        (false, Event.ran script_path 300 :: Event.loggedError error_msg ::
          display_error env error_msg)
    | .timedOut =>
      let error_msg := "Board script timed out: " ++ board_name
      (false, Event.ran script_path 300 :: Event.loggedError error_msg ::
        display_error env error_msg)
    | .raised msg =>
      let error_msg := "Error executing board script " ++ board_name ++ ": " ++ msg
      (false, Event.ran script_path 300 :: Event.loggedError error_msg ::
        display_error env error_msg)

/-- A concrete environment in which every script exists and every child
process runs past its timeout. -/
def envAllTimeout : Env := ⟨fun _ => true, fun _ _ => SpawnResult.timedOut⟩

/-- The clock-window test shared by all relative patterns, on minute
values (the `time_matches` expression of `is_time_in_relative_range`). -/
def clock_window (nowM sM eM : Int) : Bool :=
  if eM < sM then decide (nowM ≥ sM) || decide (nowM ≤ eM)
  else decide (sM ≤ nowM) && decide (nowM ≤ eM)

/-! ## Helper lemmas -/

/-- Evaluation of the relative matcher once both clock strings parse. -/
theorem relative_eval (t : Tm) (pt st et : String) (wd md sh sm eh em : Int)
    (hst : parseClock st = some (sh, sm)) (het : parseClock et = some (eh, em)) :
    is_time_in_relative_range t pt st et wd md =
      (clock_window ((t.hour : Int) * 60 + (t.minute : Int)) (sh * 60 + sm) (eh * 60 + em) &&
        (if pt = "daily" then true
         else if pt = "weekly" then decide ((t.weekday : Int) = (wd - 1) % 7)
         else if pt = "monthly" then decide ((t.day : Int) = md)
         else false)) := by
  simp only [is_time_in_relative_range, hst, het, clock_window]
  cases h : (if eh * 60 + em < sh * 60 + sm then
      decide ((t.hour : Int) * 60 + (t.minute : Int) ≥ sh * 60 + sm) ||
        decide ((t.hour : Int) * 60 + (t.minute : Int) ≤ eh * 60 + em)
    else
      decide (sh * 60 + sm ≤ (t.hour : Int) * 60 + (t.minute : Int)) &&
        decide ((t.hour : Int) * 60 + (t.minute : Int) ≤ eh * 60 + em)) <;>
    simp [h]

/-- The `daily` pattern is exactly the clock-window test. -/
theorem relative_eval_daily (t : Tm) (st et : String) (wd md sh sm eh em : Int)
    (hst : parseClock st = some (sh, sm)) (het : parseClock et = some (eh, em)) :
    is_time_in_relative_range t "daily" st et wd md =
      clock_window ((t.hour : Int) * 60 + (t.minute : Int)) (sh * 60 + sm) (eh * 60 + em) := by
  rw [relative_eval t "daily" st et wd md sh sm eh em hst het]
  simp

/-- The `weekly` pattern adds the weekday gate to the clock-window test. -/
theorem relative_eval_weekly (t : Tm) (st et : String) (wd md sh sm eh em : Int)
    (hst : parseClock st = some (sh, sm)) (het : parseClock et = some (eh, em)) :
    is_time_in_relative_range t "weekly" st et wd md =
      (clock_window ((t.hour : Int) * 60 + (t.minute : Int)) (sh * 60 + sm) (eh * 60 + em) &&
        decide ((t.weekday : Int) = (wd - 1) % 7)) := by
  rw [relative_eval t "weekly" st et wd md sh sm eh em hst het]
  simp

/-- The `monthly` pattern adds the day-of-month gate to the clock-window
test. -/
theorem relative_eval_monthly (t : Tm) (st et : String) (wd md sh sm eh em : Int)
    (hst : parseClock st = some (sh, sm)) (het : parseClock et = some (eh, em)) :
    is_time_in_relative_range t "monthly" st et wd md =
      (clock_window ((t.hour : Int) * 60 + (t.minute : Int)) (sh * 60 + sm) (eh * 60 + em) &&
        decide ((t.day : Int) = md)) := by
  rw [relative_eval t "monthly" st et wd md sh sm eh em hst het]
  simp

/-- Evaluation of the absolute matcher on naive bounds and a naive `now`. -/
theorem abs_naive_eval (n s e : Int) :
    is_time_in_absolute_range ⟨n, none⟩ (.val ⟨s, none⟩) (.val ⟨e, none⟩) =
      (decide (s ≤ n) && decide (n ≤ e)) := by
  simp only [is_time_in_absolute_range, DTStr.parse, pyLE]
  by_cases hs : s ≤ n <;> by_cases hn : n ≤ e <;> simp [hs, hn]

/-- If the fallback board's script exists, `display_error` always runs it
with the 60 second timeout, whatever the attempt's outcome. -/
theorem display_error_runs_fallback (env : Env) (m : String)
    (h : env.scriptExists dashboardScriptPath = true) :
    Event.ran dashboardScriptPath 60 ∈ display_error env m := by
  simp only [display_error, h, if_true]
  cases env.run dashboardScriptPath 60 <;> simp

/-- The scan over active schedules returns the first active item of the
schedule-major, item-minor concatenation. -/
theorem scan_eq (items : List ScheduleItem) (t : Tm) (l : List Schedule) :
    scanSchedules items t l =
      (l.flatMap (fun s => items.filter (fun it => it.schedule_id == some s.id))).find?
        (fun it => is_item_active_now it t) := by
  induction l with
  | nil => rfl
  | cons s rest ih =>
    simp only [scanSchedules, List.flatMap_cons, List.find?_append, ih]
    cases h : (items.filter (fun it => it.schedule_id == some s.id)).find?
        (fun it => is_item_active_now it t) <;> simp [h, Option.orElse]

/-! ## Claim theorems -/

/-- Claim C1: for every stored collections and instant, the resolver
returns the first item — active schedules in storage order, and within each
schedule its items in storage order — whose matcher is true now, and `none`
when there is no active schedule, no items, or no matching item: it equals
`find?` over the schedule-major, item-minor concatenation. -/
theorem C1_resolver_first_match (schedules : List Schedule)
    (schedule_items : List ScheduleItem) (t : Tm) :
    find_active_schedule_item schedules schedule_items t =
      ((schedules.filter (fun s => s.active.getD false)).flatMap
          (fun s => schedule_items.filter (fun it => it.schedule_id == some s.id))).find?
        (fun it => is_item_active_now it t) := by
  rcases schedules with _ | ⟨s0, ss⟩
  · simp [find_active_schedule_item]
  rcases hitems : schedule_items with _ | ⟨i0, is0⟩
  · have hnone : ∀ (l : List Schedule),
        List.findSome? (fun (_ : Schedule) => (none : Option ScheduleItem)) l = none := by
      intro l; induction l <;> simp_all [List.findSome?]
    simp [find_active_schedule_item, hnone]
  · simp only [find_active_schedule_item, List.isEmpty_cons, if_false]
    by_cases hact : ((s0 :: ss).filter (fun s => s.active.getD false)).isEmpty
    · have : (s0 :: ss).filter (fun s => s.active.getD false) = [] := by
        simpa [List.isEmpty_iff] using hact
      simp [this, hact]
    · simp only [hact, if_false]
      exact scan_eq _ t _

/-- Claim C2 counterexample: the engine's own load (`ScheduleEngine.load_schedules`)
of a malformed document returns an empty collection but performs no
`.backup` rename and writes no fresh document — refuting the claim that
every load of malformed JSON renames the file and rewrites it. -/
theorem C2_counterexample :
    (engine_load (α := Schedule) (.malformed "oops")).result = []
    ∧ (engine_load (α := Schedule) (.malformed "oops")).renamedToBackup = false
    ∧ (engine_load (α := Schedule) (.malformed "oops")).wroteContent = none :=
  ⟨rfl, rfl, rfl⟩

/-- Claim C2 (amended): the web store's loads of a malformed schedule or
schedule-item document rename the file to its `.backup` sibling, write a
fresh empty-array document, and return an empty collection, and a
subsequent load of the reset document yields an empty collection with no
further backup; the engine's own load only returns an empty collection,
touching no file.  In all cases the parse error is not propagated. -/
theorem C2_amended_backup_reset : ∀ raw : String,
    blueprint_load (α := Schedule) (.malformed raw) =
      ⟨[], true, some raw, some [], .wellFormed []⟩
    ∧ blueprint_load (α := ScheduleItem) (.malformed raw) =
      ⟨[], true, some raw, some [], .wellFormed []⟩
    ∧ blueprint_load (α := Schedule)
        ((blueprint_load (α := Schedule) (.malformed raw)).newContent) =
      ⟨[], false, none, none, .wellFormed []⟩
    ∧ (engine_load (α := Schedule) (.malformed raw)).result = []
    ∧ (engine_load (α := Schedule) (.malformed raw)).renamedToBackup = false
    ∧ (engine_load (α := ScheduleItem) (.malformed raw)).result = [] :=
  fun _ => ⟨rfl, rfl, rfl, rfl, rfl, rfl⟩

/-- Claim C3 counterexample: with zoned bounds 10:00–12:00 at offset +02:00
(36000 s and 43200 s wall clock, offset 7200 s) and a naive `now` of 11:00
(39600 s), the engine's absolute matcher disagrees with the claim's
strip-the-zone comparison: the engine localizes `now` as UTC and compares
instants, giving `false` where stripping gives `true`. -/
theorem C3_counterexample :
    ¬ (is_time_in_absolute_range ⟨39600, none⟩ (.val ⟨36000, some 7200⟩)
          (.val ⟨43200, some 7200⟩) =
       strip_naive_compare ⟨39600, none⟩ (.val ⟨36000, some 7200⟩)
          (.val ⟨43200, some 7200⟩)) := by
  decide

/-- Claim C3 (amended): the legacy engine (`src/scheduler.py`) strips the
zone from each zoned bound and compares local-naive values against the
naive `now`; the current engine (`src/src/scheduler.py`) instead, whenever
the start bound is zoned, attaches UTC to the naive `now` and compares
instants (`wall - offset`). -/
theorem C3_amended_timezone_handling :
    (∀ (ct : DT) (sd ed : DTStr), ct.tz = none →
      legacy_is_time_in_absolute_range ct sd ed = strip_naive_compare ct sd ed)
    ∧ (∀ n sn en os oe : Int,
      is_time_in_absolute_range ⟨n, none⟩ (.val ⟨sn, some os⟩) (.val ⟨en, some oe⟩) =
        (decide (sn - os ≤ n) && decide (n ≤ en - oe))) := by
  constructor
  · intro ct sd ed h
    obtain ⟨cv, ctz⟩ := ct
    simp only at h
    subst h
    cases sd with
    | bad => rfl
    | val s =>
      cases ed with
      | bad => rfl
      | val e =>
        simp only [legacy_is_time_in_absolute_range, strip_naive_compare, DTStr.parse, pyLE]
        by_cases hs : s.naive ≤ cv <;> by_cases he : cv ≤ e.naive <;> simp [hs, he]
  · intro n sn en os oe
    simp only [is_time_in_absolute_range, DTStr.parse, pyLE, Option.isSome_some,
      Option.isNone_none, Bool.and_self, if_true, Int.sub_zero]
    by_cases hs : sn - os ≤ n <;> by_cases he : n ≤ en - oe <;> simp [hs, he]

/-- Witness for C3: the amended theorem applied at concrete inputs. -/
theorem C3_witness :
    legacy_is_time_in_absolute_range ⟨5, none⟩ (.val ⟨3, some 60⟩) (.val ⟨9, none⟩) =
      strip_naive_compare ⟨5, none⟩ (.val ⟨3, some 60⟩) (.val ⟨9, none⟩)
    ∧ is_time_in_absolute_range ⟨39600, none⟩ (.val ⟨36000, some 7200⟩)
        (.val ⟨43200, some 7200⟩) =
      (decide ((36000 : Int) - 7200 ≤ 39600) && decide ((39600 : Int) ≤ 43200 - 7200)) :=
  ⟨C3_amended_timezone_handling.1 ⟨5, none⟩ (.val ⟨3, some 60⟩) (.val ⟨9, none⟩) rfl,
   C3_amended_timezone_handling.2 39600 36000 43200 7200 7200⟩

/-- Claim C4 (code bug): the CRUD validation shared by `create_schedule_item`
and `update_schedule_item` rejects a relative item whose `end_time` is not
strictly after its `start_time` with HTTP 400 "End time must be after start
time", even though the matcher itself supports exactly such overnight
windows: at the failing input 22:00–06:00 the validation errors while the
engine's relative matcher matches 23:30. -/
theorem C4_overnight_rejected :
    relative_item_time_check "22:00" "06:00" =
      Except.error "End time must be after start time"
    ∧ is_time_in_relative_range ⟨0, none, 23, 30, 1, 0⟩ "daily" "22:00" "06:00" 1 1 = true :=
  ⟨rfl, by decide⟩

/-- Claim C5: for every relative item whose start clock is strictly greater
than its end clock, the clock-window test succeeds iff the current clock is
at or after the start or at or before the end (overnight wrap). -/
theorem C5_overnight_wrap (t : Tm) (st et : String) (sh sm eh em wd md : Int)
    (hst : parseClock st = some (sh, sm)) (het : parseClock et = some (eh, em))
    (hover : eh * 60 + em < sh * 60 + sm) :
    is_time_in_relative_range t "daily" st et wd md =
      (decide ((t.hour : Int) * 60 + (t.minute : Int) ≥ sh * 60 + sm) ||
       decide ((t.hour : Int) * 60 + (t.minute : Int) ≤ eh * 60 + em)) := by
  rw [relative_eval_daily t st et wd md sh sm eh em hst het]
  simp [clock_window, hover]

/-- Witness for C5: the daily 22:00–06:00 window matches at 23:30. -/
theorem C5_witness :
    is_time_in_relative_range ⟨0, none, 23, 30, 1, 0⟩ "daily" "22:00" "06:00" 1 1 = true :=
  (C5_overnight_wrap ⟨0, none, 23, 30, 1, 0⟩ "22:00" "06:00" 22 0 6 0 1 1 (by decide)
    (by decide) (by decide)).trans (by decide)

/-- Claim C6: on every dispatch failure of the primary board — script not
found, non-zero exit code, timeout, or spawn error — the engine attempts
the fallback dashboard script under a 60-second timeout (whenever that
script exists), and the run returns `false` whatever the fallback attempt
does: a failing fallback is only logged, never re-raised, for every
environment. -/
theorem C6_fallback_on_dispatch_failure (env : Env) (board_name : String)
    (hfail : env.scriptExists (boardScriptPath board_name) = false
      ∨ (∃ c s, c ≠ 0 ∧ env.run (boardScriptPath board_name) 300 = SpawnResult.completed c s)
      ∨ env.run (boardScriptPath board_name) 300 = SpawnResult.timedOut
      ∨ (∃ msg, env.run (boardScriptPath board_name) 300 = SpawnResult.raised msg)) :
    (execute_board_script env board_name).1 = false
    ∧ (env.scriptExists dashboardScriptPath = true →
        Event.ran dashboardScriptPath 60 ∈ (execute_board_script env board_name).2) := by
  by_cases hex : env.scriptExists (boardScriptPath board_name) = false
  · simp only [execute_board_script, hex, if_true]
    exact ⟨trivial, fun h => List.mem_cons_of_mem _ (display_error_runs_fallback env _ h)⟩
  · have hex' : env.scriptExists (boardScriptPath board_name) = true := by
      cases h' : env.scriptExists (boardScriptPath board_name) <;> simp_all
    rcases hfail with h | ⟨c, s, hc, hrun⟩ | hrun | ⟨m, hrun⟩
    · exact absurd h hex
    · simp only [execute_board_script, hex', Bool.true_eq_false, if_false, hrun, if_neg hc]
      exact ⟨trivial, fun h => List.mem_cons_of_mem _
        (List.mem_cons_of_mem _ (display_error_runs_fallback env _ h))⟩
    · simp only [execute_board_script, hex', Bool.true_eq_false, if_false, hrun]
      exact ⟨trivial, fun h => List.mem_cons_of_mem _
        (List.mem_cons_of_mem _ (display_error_runs_fallback env _ h))⟩
    · simp only [execute_board_script, hex', Bool.true_eq_false, if_false, hrun]
      exact ⟨trivial, fun h => List.mem_cons_of_mem _
        (List.mem_cons_of_mem _ (display_error_runs_fallback env _ h))⟩

/-- Witness for C6: in the environment where every child process times out,
a dispatch fails and the fallback dashboard run under timeout 60 appears in
the trace. -/
theorem C6_witness :
    (execute_board_script envAllTimeout "photo-album").1 = false
    ∧ (envAllTimeout.scriptExists dashboardScriptPath = true →
        Event.ran dashboardScriptPath 60 ∈
          (execute_board_script envAllTimeout "photo-album").2) :=
  C6_fallback_on_dispatch_failure envAllTimeout "photo-album" (Or.inr (Or.inr (Or.inl rfl)))

/-- Claim C7: for a relative weekly item whose clock window contains the
current time of day, the matcher is true iff the current weekday equals
`weekly_day` under the Monday=1..Sunday=7 convention (Python's `weekday()`
is 0 = Monday, so the match is `weekday + 1 = weekly_day`). -/
theorem C7_weekly_anchor (t : Tm) (st et : String) (wd md : Int)
    (hwin : is_time_in_relative_range t "daily" st et 1 1 = true)
    (hwd1 : 1 ≤ wd) (hwd7 : wd ≤ 7) :
    (is_time_in_relative_range t "weekly" st et wd md = true ↔ (t.weekday : Int) + 1 = wd) := by
  cases hst : parseClock st with
  | none => simp [is_time_in_relative_range, hst] at hwin
  | some p =>
    cases het : parseClock et with
    | none => cases p; simp [is_time_in_relative_range, hst, het] at hwin
    | some q =>
      obtain ⟨sh, sm⟩ := p
      obtain ⟨eh, em⟩ := q
      rw [relative_eval_daily t st et 1 1 sh sm eh em hst het] at hwin
      rw [relative_eval_weekly t st et wd md sh sm eh em hst het, hwin]
      simp only [Bool.true_and, decide_eq_true_eq]
      omega

/-- Witness for C7: `weekly_day = 1` matches on a Monday (Python weekday 0)
inside the 09:00–17:00 window. -/
theorem C7_witness :
    is_time_in_relative_range ⟨0, none, 10, 0, 6, 0⟩ "weekly" "09:00" "17:00" 1 1 = true :=
  (C7_weekly_anchor ⟨0, none, 10, 0, 6, 0⟩ "09:00" "17:00" 1 1 (by decide) (by decide)
    (by decide)).mpr (by decide)

/-- Claim C8: for a relative monthly item whose clock window contains the
current time of day, the matcher is true iff the day of month equals
`monthly_day` exactly, with no clamping: `monthly_day = 31` never matches
when the current day of month is at most 30. -/
theorem C8_monthly_no_clamp (t : Tm) (st et : String) (wd md : Int)
    (hwin : is_time_in_relative_range t "daily" st et 1 1 = true) :
    (is_time_in_relative_range t "monthly" st et wd md = true ↔ (t.day : Int) = md)
    ∧ (t.day ≤ 30 → is_time_in_relative_range t "monthly" st et wd 31 = false) := by
  cases hst : parseClock st with
  | none => simp [is_time_in_relative_range, hst] at hwin
  | some p =>
    cases het : parseClock et with
    | none => cases p; simp [is_time_in_relative_range, hst, het] at hwin
    | some q =>
      obtain ⟨sh, sm⟩ := p
      obtain ⟨eh, em⟩ := q
      rw [relative_eval_daily t st et 1 1 sh sm eh em hst het] at hwin
      rw [relative_eval_monthly t st et wd md sh sm eh em hst het,
        relative_eval_monthly t st et wd 31 sh sm eh em hst het, hwin]
      constructor
      · simp
      · intro hday
        simp only [Bool.true_and, decide_eq_false_iff_not]
        omega

/-- Witness for C8: on day 30 of a month, `monthly_day = 30` matches and
`monthly_day = 31` does not. -/
theorem C8_witness :
    (is_time_in_relative_range ⟨0, none, 10, 0, 30, 2⟩ "monthly" "09:00" "17:00" 1 30 = true ↔
      ((⟨0, none, 10, 0, 30, 2⟩ : Tm).day : Int) = 30)
    ∧ is_time_in_relative_range ⟨0, none, 10, 0, 30, 2⟩ "monthly" "09:00" "17:00" 1 31 = false :=
  ⟨(C8_monthly_no_clamp ⟨0, none, 10, 0, 30, 2⟩ "09:00" "17:00" 1 30 (by decide)).1,
   (C8_monthly_no_clamp ⟨0, none, 10, 0, 30, 2⟩ "09:00" "17:00" 1 30 (by decide)).2 (by decide)⟩

/-- Claim C9: for naive instants with `start ≤ end`, the absolute matcher is
true exactly on the closed interval: true at both endpoints, false one
second before the start and one second after the end. -/
theorem C9_absolute_inclusive (s e : Int) (h : s ≤ e) :
    (∀ n : Int, is_time_in_absolute_range ⟨n, none⟩ (.val ⟨s, none⟩) (.val ⟨e, none⟩) = true ↔
      (s ≤ n ∧ n ≤ e))
    ∧ is_time_in_absolute_range ⟨s, none⟩ (.val ⟨s, none⟩) (.val ⟨e, none⟩) = true
    ∧ is_time_in_absolute_range ⟨e, none⟩ (.val ⟨s, none⟩) (.val ⟨e, none⟩) = true
    ∧ is_time_in_absolute_range ⟨s - 1, none⟩ (.val ⟨s, none⟩) (.val ⟨e, none⟩) = false
    ∧ is_time_in_absolute_range ⟨e + 1, none⟩ (.val ⟨s, none⟩) (.val ⟨e, none⟩) = false := by
  refine ⟨fun n => ?_, ?_, ?_, ?_, ?_⟩ <;> rw [abs_naive_eval] <;> simp <;> omega

/-- Witness for C9: the interval `[0, 10]` contains 0 and excludes 11. -/
theorem C9_witness :
    is_time_in_absolute_range ⟨0, none⟩ (.val ⟨0, none⟩) (.val ⟨10, none⟩) = true
    ∧ is_time_in_absolute_range ⟨11, none⟩ (.val ⟨0, none⟩) (.val ⟨10, none⟩) = false :=
  ⟨(C9_absolute_inclusive 0 10 (by decide)).2.1, (C9_absolute_inclusive 0 10 (by decide)).2.2.2.2⟩

/-- Claim C10: `is_item_active_now` is total over the discriminator: a
missing `schedule_type` is evaluated as `absolute`, and any value other
than `absolute` or `relative` makes the item never active. -/
theorem C10_schedule_type_total (item : ScheduleItem) (t : Tm) (s : String) :
    is_item_active_now { item with schedule_type := none } t =
      is_item_active_now { item with schedule_type := some "absolute" } t
    ∧ (s ≠ "absolute" → s ≠ "relative" →
        is_item_active_now { item with schedule_type := some s } t = false) := by
  constructor
  · rfl
  · intro h1 h2
    simp [is_item_active_now, h1, h2]

/-- Witness for C10: a concrete item with the discriminator missing, set to
`absolute`, and set to an unknown value. -/
theorem C10_witness :
    is_item_active_now ⟨"i", some "s", "b", none, none, none, none, none, none, none, none⟩
        ⟨0, none, 23, 30, 1, 0⟩ =
      is_item_active_now
        ⟨"i", some "s", "b", some "absolute", none, none, none, none, none, none, none⟩
        ⟨0, none, 23, 30, 1, 0⟩
    ∧ is_item_active_now
        ⟨"i", some "s", "b", some "weird", none, none, none, none, none, none, none⟩
        ⟨0, none, 23, 30, 1, 0⟩ = false :=
  ⟨(C10_schedule_type_total ⟨"i", some "s", "b", none, none, none, none, none, none, none, none⟩
      ⟨0, none, 23, 30, 1, 0⟩ "weird").1,
   (C10_schedule_type_total ⟨"i", some "s", "b", none, none, none, none, none, none, none, none⟩
      ⟨0, none, 23, 30, 1, 0⟩ "weird").2 (by decide) (by decide)⟩

end GlyphyBoard
